import Mathlib

/-!
# Verification of `scripts/autopilot/autopilot.py` (ai-coding-factory)

Shallow embedding of the autopilot CLI tool.  Pure Python string helpers are
translated to Lean functions over `String` / `List Char`; the effectful
orchestrator commands (`cmd_start`, `cmd_evidence`) are translated to pure
functions from an explicit environment (git status, origin remote, environment
variables, HTTP-server oracle) to a result plus an effect trace (HTTP calls
issued, files written, git commands run, console output).

Modelling conventions:
* Python truthiness of optional strings (`None` and `""` are falsy) is
  modelled by `truthy` / `pyOr`.
* `re` patterns are translated to equivalent deterministic character-list
  parsers, reproducing the greedy/lazy semantics of each concrete pattern.
* `\s`, `str.strip()` whitespace is modelled by `Char.isWhitespace`, and
  `\d` by ASCII digits (the story ids in scope are ASCII).
* Network responses are supplied by oracle fields of `Env`; transport errors
  (NetworkError/HttpError) are outside the claims and are not modelled.
* JSON/markdown serialisation of the written files is abstracted: the file
  trace stores the structured payload (`FileData`), not rendered bytes.
-/

/-! ## Python string primitives -/

/-- Python truthiness of an optional string: `None` and `""` are falsy. -/
def truthy : Option String → Bool
  | none => false
  | some s => !s.isEmpty

/-- Python `a or b` on optional strings. -/
def pyOr (a b : Option String) : Option String :=
  if truthy a then a else b

/-- Python `a or b` where `b` is a definite (non-empty) default string. -/
def orS (a : Option String) (b : String) : String :=
  match a with
  | some s => if s.isEmpty then b else s
  | none => b

/-- Python `a or b` on plain strings (`""` is falsy; emptiness checked on the
underlying character list). -/
def pyOrStr (a b : String) : String :=
  if a.data.isEmpty then b else a

/-- Python `str.strip()` on a character list (strip whitespace both ends). -/
def pyStripWs (l : List Char) : List Char :=
  ((l.dropWhile Char.isWhitespace).reverse.dropWhile Char.isWhitespace).reverse

/-- Python `str.strip(chars)`: strip any of `chars` from both ends. -/
def pyStripChars (chars : List Char) (l : List Char) : List Char :=
  ((l.dropWhile (chars.contains ·)).reverse.dropWhile (chars.contains ·)).reverse

/-- Python `str.splitlines()` (line breaks `\n`, `\r`, `\r\n`). -/
def pySplitlines : List Char → List (List Char)
  | [] => []
  | '\r' :: '\n' :: rest => [] :: pySplitlines rest
  | '\r' :: rest => [] :: pySplitlines rest
  | '\n' :: rest => [] :: pySplitlines rest
  | c :: rest =>
    match pySplitlines rest with
    | [] => [[c]]
    | l :: ls => (c :: l) :: ls

/-- Python `sub in s` (substring containment, `marker in body`). -/
def pyContains (s sub : String) : Bool :=
  decide (sub.data <:+: s.data)

/-- Python `str.replace(old, new)` on character lists: replace all
non-overlapping occurrences of `old`, scanning left to right.  Fuel-indexed
so the recursion is structural (each step either consumes one character or,
when a non-empty `old` matches, at least one). -/
def pyReplaceAux (old new : List Char) : Nat → List Char → List Char
  | 0, l => l
  | _ + 1, [] => []
  | fuel + 1, c :: cs =>
    if old ≠ [] ∧ old.isPrefixOf (c :: cs) then
      new ++ pyReplaceAux old new fuel ((c :: cs).drop old.length)
    else
      c :: pyReplaceAux old new fuel cs

def pyReplace (l old new : List Char) : List Char :=
  pyReplaceAux old new l.length l

/-- ASCII letter or digit (the regex class `[a-zA-Z0-9]`). -/
def isAsciiAlnum (c : Char) : Bool :=
  (('a' ≤ c && c ≤ 'z') || ('A' ≤ c && c ≤ 'Z') || ('0' ≤ c && c ≤ '9'))

/-! ## `_slugify` (source lines 73-76)

```python
def _slugify(text, *, max_len=40):
    slug = re.sub(r"[^a-zA-Z0-9]+", "-", text.strip()).strip("-").lower()
    slug = re.sub(r"-{2,}", "-", slug)
    return slug[:max_len] or "work"
```
-/

/-- `re.sub(r"[^a-zA-Z0-9]+", "-", ·)`: each maximal run of non-alphanumeric
characters becomes a single `-`.  The boolean tracks whether the previous
character was part of such a run. -/
def subNonAlnumAux : Bool → List Char → List Char
  | _, [] => []
  | prevDash, c :: cs =>
    if isAsciiAlnum c then c :: subNonAlnumAux false cs
    else if prevDash then subNonAlnumAux true cs
    else '-' :: subNonAlnumAux true cs

def subNonAlnum (l : List Char) : List Char :=
  subNonAlnumAux false l

/-- `re.sub(r"-{2,}", "-", ·)`: collapse runs of two or more dashes. -/
def collapseDashesAux : Bool → List Char → List Char
  | _, [] => []
  | prevDash, c :: cs =>
    if c = '-' then
      if prevDash then collapseDashesAux true cs
      else '-' :: collapseDashesAux true cs
    else c :: collapseDashesAux false cs

def collapseDashes (l : List Char) : List Char :=
  collapseDashesAux false l

/-- The slug before the `or "work"` fallback: `slug[:40]` of the pipeline. -/
def slugCore (text : String) : List Char :=
  let s1 := subNonAlnum (pyStripWs text.data)
  let s2 := pyStripChars ['-'] s1
  let s3 := s2.map Char.toLower
  let s4 := collapseDashes s3
  s4.take 40

def slugify (text : String) : String :=
  let s := slugCore text
  if s.isEmpty then "work" else String.mk s

/-! ## Story id pattern `STORY_ID_RE = re.compile(r"^ACF-\d+$")` (line 31) -/

def storyIdMatch (s : String) : Bool :=
  "ACF-".data.isPrefixOf s.data
    && !(s.data.drop 4).isEmpty
    && (s.data.drop 4).all Char.isDigit

/-! ## Origin remote parsing (source lines 174-189 and 295-315) -/

/-- Match a literal at the head of a character list and return the remainder. -/
def afterLit (lit l : List Char) : Option (List Char) :=
  if lit.isPrefixOf l then some (l.drop lit.length) else none

/-- The `([^/]+)/(.+?)(?:\.git)?$` part shared by the two GitHub origin
patterns: a non-empty slash-free owner, a `/`, then a non-empty repo in which
a final `.git` (if the repo part is longer than `.git` itself, per the lazy
`.+?`) is dropped. -/
def ownerRepoOf (l : List Char) : Option String :=
  let owner := l.takeWhile (· ≠ '/')
  match l.drop owner.length with
  | '/' :: tail =>
    if owner.isEmpty || tail.isEmpty then none
    else
      let repo :=
        if 4 < tail.length && ".git".data.isSuffixOf tail then
          tail.take (tail.length - 4)
        else tail
      some (String.mk (owner ++ '/' :: repo))
  | _ => none

/-- `_github_repo_from_origin` URL matching (lines 181-189):
`^git@github\.com:([^/]+)/(.+?)(?:\.git)?$` then
`^https?://github\.com/([^/]+)/(.+?)(?:\.git)?$`. -/
def githubUrlRepo (url : String) : Option String :=
  match afterLit "git@github.com:".data url.data with
  | some rest => ownerRepoOf rest
  | none =>
    match afterLit "https://github.com/".data url.data with
    | some rest => ownerRepoOf rest
    | none =>
      match afterLit "http://github.com/".data url.data with
      | some rest => ownerRepoOf rest
      | none => none

/-- Python `str.split(sep)` for a one-character separator (`"/"`.split). -/
def splitOnChar (sep : Char) : List Char → List (List Char)
  | [] => [[]]
  | c :: cs =>
    if c = sep then [] :: splitOnChar sep cs
    else
      match splitOnChar sep cs with
      | [] => [[c]]
      | h :: t => (c :: h) :: t

/-- Python `sep.join(parts)` for a one-character separator. -/
def joinWith (sep : Char) : List (List Char) → List Char
  | [] => []
  | [x] => x
  | x :: xs => x ++ sep :: joinWith sep xs

/-- Lines 311-313: `parts = org_project.split("/")`,
`org_url = "/".join(parts[:-1])`, `project = parts[-1]`. -/
def azureSplitOrgProject (org_project : String) : String × String :=
  let parts := splitOnChar '/' org_project.data
  (String.mk (joinWith '/' parts.dropLast), String.mk (parts.getLastD []))

/-- One scheme alternative of
`^(https?://dev\.azure\.com/[^/]+/[^/]+)/_git/([^/]+)$` (line 306). -/
def azureParse (scheme : String) (url : String) : Option (String × String × String) :=
  match afterLit scheme.data url.data with
  | none => none
  | some rest =>
    let org := rest.takeWhile (· ≠ '/')
    if org.isEmpty then none else
    match rest.drop org.length with
    | '/' :: r2 =>
      let proj := r2.takeWhile (· ≠ '/')
      if proj.isEmpty then none else
      match r2.drop proj.length with
      | '/' :: r3 =>
        match afterLit "_git/".data r3 with
        | none => none
        | some repo =>
          if repo.isEmpty || repo.contains '/' then none
          else
            let org_project := scheme ++ String.mk org ++ "/" ++ String.mk proj
            let op := azureSplitOrgProject org_project
            some (op.1, op.2, String.mk repo)
      | _ => none
    | _ => none

/-- `_azure_repo_from_origin` URL matching (lines 305-315). -/
def azureUrlRepo (url : String) : Option (String × String × String) :=
  match azureParse "https://dev.azure.com/" url with
  | some t => some t
  | none => azureParse "http://dev.azure.com/" url

/-! ## `urllib.parse.quote` and the Azure artifact link (lines 400-423) -/

/-- Uppercase hexadecimal digit. -/
def hexDigitU (n : Nat) : Char :=
  if n < 10 then Char.ofNat (48 + n) else Char.ofNat (55 + n)

/-- `%XX` encoding of one byte. -/
def percentEnc (b : Nat) : List Char :=
  ['%', hexDigitU (b / 16), hexDigitU (b % 16)]

/-- UTF-8 bytes of a code point. -/
def utf8Bytes (n : Nat) : List Nat :=
  if n < 128 then [n]
  else if n < 2048 then [192 + n / 64, 128 + n % 64]
  else if n < 65536 then [224 + n / 4096, 128 + (n / 64) % 64, 128 + n % 64]
  else [240 + n / 262144, 128 + (n / 4096) % 64, 128 + (n / 64) % 64, 128 + n % 64]

/-- Characters `urllib.parse.quote` leaves unencoded with the default
`safe='/'`: ASCII alphanumerics, `_.-~`, and `/`. -/
def quoteSafeChar (c : Char) : Bool :=
  isAsciiAlnum c || ['_', '.', '-', '~', '/'].contains c

/-- `urllib.parse.quote(s)` with the default safe set. -/
def pyQuote (s : String) : String :=
  String.mk (s.data.flatMap fun c =>
    if quoteSafeChar c then [c] else (utf8Bytes c.toNat).flatMap percentEnc)

/-- Line 414: the artifact link built by `_azure_link_work_item_to_pr`:
`f"vstfs:///Git/PullRequestId/{quote(project)}%2F{quote(repo)}%2F{pr_id}"`. -/
def azureArtifactUrl (project repo : String) (prId : Nat) : String :=
  "vstfs:///Git/PullRequestId/" ++ pyQuote project ++ "%2F" ++ pyQuote repo
    ++ "%2F" ++ Nat.repr prId

/-! ## Supporting lemmas for the slug pipeline -/

theorem mem_pyStripWs {c : Char} {l : List Char} (h : c ∈ pyStripWs l) : c ∈ l := by
  unfold pyStripWs at h
  rw [List.mem_reverse] at h
  have h2 := (List.dropWhile_sublist _).mem h
  rw [List.mem_reverse] at h2
  exact (List.dropWhile_sublist _).mem h2

theorem subNonAlnumAux_all_nonalnum {l : List Char}
    (h : ∀ c ∈ l, isAsciiAlnum c = false) :
    subNonAlnumAux true l = [] ∧ (subNonAlnum l = [] ∨ subNonAlnum l = ['-']) := by
  induction l with
  | nil => simp [subNonAlnum, subNonAlnumAux]
  | cons c cs ih =>
    have hc : isAsciiAlnum c = false := h c (List.mem_cons_self _ _)
    have ihh := ih (fun d hd => h d (List.mem_cons_of_mem _ hd))
    constructor
    · simp [subNonAlnumAux, hc, ihh.1]
    · simp [subNonAlnum, subNonAlnumAux, hc, ihh.1]

theorem slugify_of_no_alnum {s : String} (h : ∀ c ∈ s.data, isAsciiAlnum c = false) :
    slugify s = "work" := by
  have hs : ∀ c ∈ pyStripWs s.data, isAsciiAlnum c = false :=
    fun c hc => h c (mem_pyStripWs hc)
  have hsub := (subNonAlnumAux_all_nonalnum hs).2
  unfold slugify slugCore
  rcases hsub with h1 | h1 <;> rw [h1] <;> rfl

theorem slugify_length_le (s : String) : (slugify s).length ≤ 40 := by
  by_cases h : (slugCore s).isEmpty
  · rw [show slugify s = "work" by simp [slugify, h]]
    decide
  · have h1 : slugify s = String.mk (slugCore s) := by
      simp [slugify, h]
    rw [h1]
    have h2 : (String.mk (slugCore s)).length = (slugCore s).length := rfl
    rw [h2]
    unfold slugCore
    simp [List.length_take]

/-! ## Claim theorems C6, C7, C8 -/

/-- Claim C6: slugification.  `_slugify` maps `"Hello, World!! Foo"` to
`"hello-world-foo"`; for every input the result is at most 40 characters
long; an input whose pipeline result (`slug[:max_len]`) is empty — in
particular any input without an ASCII alphanumeric character — yields the
literal fallback `"work"`. -/
theorem slugify_spec :
    slugify "Hello, World!! Foo" = "hello-world-foo"
    ∧ (∀ s : String, (slugify s).length ≤ 40)
    ∧ (∀ s : String, slugCore s = [] → slugify s = "work")
    ∧ (∀ s : String, (∀ c ∈ s.data, isAsciiAlnum c = false) → slugify s = "work") := by
  refine ⟨by decide, slugify_length_le, fun s h => ?_, fun s h => slugify_of_no_alnum h⟩
  simp [slugify, h]

/-- Witness for `slugify_spec` at concrete inputs. -/
theorem slugify_spec_witness :
    slugify "!!!" = "work" ∧ slugify "" = "work" :=
  ⟨slugify_spec.2.2.2 "!!!" (by decide), slugify_spec.2.2.1 "" (by decide)⟩

/-- Claim C7: origin-remote parsing.  The SSH and HTTPS GitHub remote URLs
both resolve to `"acme/widgets"`, and the Azure Repos URL resolves to the
org URL, project and repo components. -/
theorem origin_remote_parsing :
    githubUrlRepo "git@github.com:acme/widgets.git" = some "acme/widgets"
    ∧ githubUrlRepo "https://github.com/acme/widgets.git" = some "acme/widgets"
    ∧ azureUrlRepo "https://dev.azure.com/acme/proj/_git/widgets" =
        some ("https://dev.azure.com/acme", "proj", "widgets") := by
  refine ⟨by decide, by decide, by decide⟩

/-- Claim C8: the Azure DevOps PR artifact link has the exact form
`vstfs:///Git/PullRequestId/<project>%2F<repo>%2F<prId>` with the project and
repo components passed through `urllib.parse.quote`; concretely the quoting
percent-encodes unsafe characters (space, non-ASCII). -/
theorem azure_artifact_url_form :
    (∀ (project repo : String) (prId : Nat),
      azureArtifactUrl project repo prId =
        "vstfs:///Git/PullRequestId/" ++ pyQuote project ++ "%2F" ++ pyQuote repo
          ++ "%2F" ++ Nat.repr prId)
    ∧ azureArtifactUrl "my proj" "wid gets" 12 =
        "vstfs:///Git/PullRequestId/my%20proj%2Fwid%20gets%2F12"
    ∧ pyQuote "é" = "%C3%A9" := by
  exact ⟨fun _ _ _ => rfl, by decide, by decide⟩

/-! ## Story title resolution (`_parse_story`, source lines 100-120) -/

/-- One step of the frontmatter loop (lines 104-110): stop at a `---` line,
or extract `line.split(":", 1)[1].strip()` from the first line whose
lowercase form starts with `title:`. -/
def fmTitleLoop : List (List Char) → List Char
  | [] => []
  | line :: rest =>
    if pyStripWs line = "---".data then []
    else if "title:".data.isPrefixOf (line.map Char.toLower) then
      pyStripWs ((line.dropWhile (· ≠ ':')).drop 1)
    else fmTitleLoop rest

/-- The frontmatter title: scanned only when the content starts with `---`,
over `content.splitlines()[1:80]`. -/
def fmTitle (content : String) : String :=
  if "---".data.isPrefixOf content.data then
    String.mk (fmTitleLoop (((pySplitlines content.data).drop 1).take 79))
  else ""

/-- `re.match(r"^#+\s+(.+)$", line.strip())` (line 114): on the stripped
line, one or more `#`, at least one whitespace character, then the
(greedy-whitespace) remainder; the group is then `.strip()`ed (line 116). -/
def headingOf (line : List Char) : Option (List Char) :=
  let s := pyStripWs line
  match s with
  | '#' :: _ =>
    let t := s.dropWhile (· = '#')
    match t with
    | c :: _ =>
      if c.isWhitespace then
        let g := t.dropWhile Char.isWhitespace
        if g.isEmpty then none else some (pyStripWs g)
      else none
    | [] => none
  | _ => none

/-- The heading-derived title: the first line matching the heading pattern
(lines 113-117), or `""`. -/
def bodyTitle (content : String) : String :=
  String.mk (((pySplitlines content.data).findSome? headingOf).getD [])

/-- Line 119:
`effective_title = title or body_title.replace(story_id, "").strip(" -:") or "Untitled"`. -/
def effectiveTitle (story_id content : String) : String :=
  pyOrStr (fmTitle content)
    (pyOrStr
      (String.mk (pyStripChars " -:".data
        (pyReplace (bodyTitle content).data story_id.data [])))
      "Untitled")

/-! ## Supporting lemmas for title resolution -/

theorem dropWhile_append_one {p : Char → Bool} {c : Char} (hc : p c = false) :
    ∀ xs : List Char, (xs ++ [c]).dropWhile p = xs.dropWhile p ++ [c] := by
  intro xs
  induction xs with
  | nil => simp [List.dropWhile, hc]
  | cons x xs ih =>
    by_cases hx : p x
    · simp [List.dropWhile, hx, ih]
    · simp [List.dropWhile, hx]

theorem pyStripWs_cons_not_ws {c : Char} {cs : List Char} (h : c.isWhitespace = false) :
    pyStripWs (c :: cs) = c :: (cs.reverse.dropWhile Char.isWhitespace).reverse := by
  unfold pyStripWs
  rw [List.dropWhile_cons]
  rw [if_neg (by simp [h])]
  rw [List.reverse_cons, dropWhile_append_one h, List.reverse_append]
  simp

theorem effectiveTitle_frontmatter (id content : String) (t : List Char)
    (rest : List (List Char))
    (hsplit : pySplitlines content.data
      = "---".data :: ("title:".data ++ t) :: "---".data :: rest)
    (hpre : "---".data.isPrefixOf content.data = true)
    (ht : pyStripWs t ≠ []) :
    effectiveTitle id content = String.mk (pyStripWs t) := by
  have hfm : fmTitle content = String.mk (pyStripWs t) := by
    unfold fmTitle
    rw [hsplit]
    simp only [hpre, if_true, List.drop, List.take]
    unfold fmTitleLoop
    rw [if_neg (by
      have h1 : "title:".data ++ t = 't' :: ("itle:".data ++ t) := rfl
      rw [h1, pyStripWs_cons_not_ws (by decide)]
      simp)]
    rw [if_pos (by
      rw [List.map_append]
      rw [show "title:".data.map Char.toLower = "title:".data from by decide]
      simp)]
    rw [show (("title:".data ++ t).dropWhile (· ≠ ':')).drop 1 = t from rfl]
  unfold effectiveTitle
  cases hcase : pyStripWs t with
  | nil => exact absurd hcase ht
  | cons a l =>
    rw [hfm, hcase]
    rfl

theorem effectiveTitle_heading (id content : String) (l bt : List Char)
    (rest : List (List Char))
    (hsplit : pySplitlines content.data = l :: rest)
    (hpre : "---".data.isPrefixOf content.data = false)
    (hhead : headingOf l = some bt) :
    effectiveTitle id content =
      pyOrStr (String.mk (pyStripChars " -:".data (pyReplace bt id.data []))) "Untitled" := by
  have hfm : fmTitle content = "" := by
    unfold fmTitle
    simp [hpre]
  have hbt : bodyTitle content = String.mk bt := by
    unfold bodyTitle
    rw [hsplit, List.findSome?_cons, hhead]
    rfl
  unfold effectiveTitle
  rw [hfm, hbt]
  rfl

/-- Claim C5 taken literally on its heading half: resolved title = heading
text with the identifier removed and only LEADING `-`/`:` characters
stripped.  This definition follows the claim wording (for comparison with
the source behaviour `effectiveTitle`), not the code. -/
def claimHeadingTitle (story_id content : String) : String :=
  String.mk ((pyReplace (bodyTitle content).data story_id.data []).dropWhile
    (fun c => c = '-' || c = ':'))

/-! ## Claim theorems C5 -/

/-- Claim C5 counterexample: for the story content `"# Hello -"` (no
frontmatter, heading `Hello -`, identifier not occurring), the code resolves
the title to `"Hello"` — the trailing ` -` is stripped too — while the claim
as stated (identifier removed, only leading `-`/`:` stripped) predicts
`"Hello -"`. -/
theorem title_resolution_counterexample :
    effectiveTitle "ACF-1" "# Hello -" = "Hello"
    ∧ claimHeadingTitle "ACF-1" "# Hello -" = "Hello -"
    ∧ effectiveTitle "ACF-1" "# Hello -" ≠ claimHeadingTitle "ACF-1" "# Hello -" := by
  exact ⟨by decide, by decide, by decide⟩

/-- Claim C5 (amended): a frontmatter `title:` line with a non-empty stripped
value resolves to that (stripped) value, taking precedence over anything in
the rest of the file; with no frontmatter, a file whose first line is a
Markdown heading resolves to the heading text with every occurrence of the
identifier removed and space/`-`/`:` characters stripped from BOTH ends
(falling back to `"Untitled"` when that leaves nothing). -/
theorem title_resolution :
    (∀ (id content : String) (t : List Char) (rest : List (List Char)),
      pySplitlines content.data
          = "---".data :: ("title:".data ++ t) :: "---".data :: rest →
      "---".data.isPrefixOf content.data = true →
      pyStripWs t ≠ [] →
      effectiveTitle id content = String.mk (pyStripWs t))
    ∧ (∀ (id content : String) (l bt : List Char) (rest : List (List Char)),
      pySplitlines content.data = l :: rest →
      "---".data.isPrefixOf content.data = false →
      headingOf l = some bt →
      effectiveTitle id content =
        pyOrStr (String.mk (pyStripChars " -:".data (pyReplace bt id.data [])))
          "Untitled") :=
  ⟨effectiveTitle_frontmatter, effectiveTitle_heading⟩

/-- Witness for `title_resolution` at concrete story files. -/
theorem title_resolution_witness :
    effectiveTitle "ACF-9" "---\ntitle: My Story\n---\n# ACF-9 ignored" = "My Story"
    ∧ effectiveTitle "ACF-7" "# ACF-7: Fix the gadget" = "Fix the gadget" := by
  constructor
  · exact (title_resolution.1 "ACF-9" "---\ntitle: My Story\n---\n# ACF-9 ignored"
      " My Story".data ["# ACF-9 ignored".data] (by decide) (by decide)
      (by decide)).trans (by decide)
  · exact (title_resolution.2 "ACF-7" "# ACF-7: Fix the gadget"
      "# ACF-7: Fix the gadget".data "ACF-7: Fix the gadget".data [] (by decide)
      (by decide) (by decide)).trans (by decide)

/-! ## Data model for the orchestrator -/

/-- Terminal failure taxonomy (spec section 7) for the exceptions raised by
the orchestrator.  Transport failures (NetworkError/HttpError) are not
modelled: the HTTP oracle in `Env` always answers. -/
inductive Err where
  | invalidIdentifier
  | notFound
  | dirtyWorktree
  | pushRequired
  | missingCredentialsGitHub
  | missingCredentialsAzure
  | missingProviderInfo
  | noProviderConfigured
  | unknownProvider
  deriving DecidableEq, Repr

inductive HttpMethod where
  | get
  | post
  | patch
  deriving DecidableEq, Repr

/-- One HTTP request issued through `_http_json` (request payloads are not
recorded). -/
structure HttpCall where
  method : HttpMethod
  url : String
  deriving DecidableEq, Repr

/-- The `{number, html_url, title}` projection of a GitHub issue or PR. -/
structure GhIssue where
  number : Nat
  html_url : String
  title : String
  deriving DecidableEq, Repr

structure GhComment where
  id : Nat
  body : String
  deriving DecidableEq, Repr

structure AzurePr where
  pullRequestId : Nat
  url : String
  title : String
  deriving DecidableEq, Repr

/-- The GitHub variant of the persisted `state["provider"]` block
(line 634). -/
structure GhProviderState where
  apiUrl : String
  repo : String
  issue : Option GhIssue
  pr : Option GhIssue
  deriving DecidableEq, Repr

/-- The Azure DevOps variant of the persisted `state["provider"]` block
(lines 706-715). -/
structure AzProviderState where
  orgUrl : String
  project : String
  repo : String
  workItemType : String
  workItemId : Nat
  prId : Nat
  prUrl : String
  deriving DecidableEq, Repr

/-- The `provider` entry of the state record: `{}` until an integration
succeeds, then one of the two provider payloads. -/
inductive ProviderBlock where
  | empty
  | github (g : GhProviderState)
  | azuredevops (a : AzProviderState)
  deriving DecidableEq, Repr

/-- The persisted per-work-item JSON record (lines 568-576). -/
structure StateRec where
  storyId : String
  storyTitle : String
  storyFile : String
  branch : String
  baseBranch : String
  createdAt : String
  provider : ProviderBlock
  deriving DecidableEq, Repr

/-- Structured payload of a written file (serialisation abstracted). -/
inductive FileData where
  | reviewPack (storyId storyTitle storyFileRel generated : String)
  | stateJson (s : StateRec)
  deriving DecidableEq, Repr

/-- Effect trace of one command execution. -/
structure Effects where
  http : List HttpCall := []
  filesWritten : List (String × FileData) := []
  gitCalls : List (List String) := []
  localRuns : List String := []
  output : List String := []
  deriving DecidableEq, Repr

/-- The ambient world: git status/remote, environment variables, the story
files on disk, the persisted state file, and the responses the remote
servers would give to each kind of request. -/
structure Env where
  statusLines : List String
  originUrl : Option String
  getenv : String → Option String
  storyDirect : Option String
  storyScan : Option (String × String)
  now : String
  ghSearchItems : List GhIssue
  ghCreatedIssue : GhIssue
  ghCreatedPr : GhIssue
  ghComments : List GhComment
  ghNextCommentId : Nat
  azWiqlItems : List Nat
  azCreatedWiId : Nat
  azCreatedPr : AzurePr
  stateFile : Option StateRec

/-- Arguments of the `start` subcommand (lines 841-863; `--push` implies
`--commit` at line 881-882, applied by the caller). -/
structure StartArgs where
  story_id : String
  stories_dir : String := "artifacts/stories"
  provider : String := "auto"
  base_branch : String := "main"
  draft : Bool := false
  dry_run : Bool := false
  allow_untracked : Bool := false
  commit : Bool := false
  push : Bool := false
  require_integration : Bool := false
  github_token : Option String := none
  github_repo : Option String := none
  github_api_url : Option String := none
  azure_pat : Option String := none
  azure_org_url : Option String := none
  azure_project : Option String := none
  azure_repo : Option String := none
  azure_work_item_type : Option String := none

/-- Arguments of the `evidence` subcommand (lines 865-873). -/
structure EvidenceArgs where
  story_id : String
  stories_dir : String := "artifacts/stories"
  tests_root : String := "."
  run_local : Bool := false
  full_verify : Bool := false
  dry_run : Bool := false
  github_token : Option String := none
  azure_pat : Option String := none

/-! ## Git-level and filesystem helpers -/

/-- `_require_clean_worktree` (lines 59-70): `true` when the check passes. -/
def requireCleanWorktree (env : Env) (allow_untracked : Bool) : Bool :=
  let lines := env.statusLines.filter (fun l => !(pyStripWs l.data).isEmpty)
  if lines.isEmpty then true
  else if allow_untracked then
    (lines.filter (fun l => !l.startsWith "?? ")).isEmpty
  else false

/-- `_github_repo_from_origin` (lines 174-189): strip the remote URL from
`git remote get-url origin`, then match the two GitHub patterns. -/
def githubRepoFromOrigin (env : Env) : Option String :=
  match env.originUrl with
  | none => none
  | some raw =>
    let url := String.mk (pyStripWs raw.data)
    if url.data.isEmpty then none else githubUrlRepo url

/-- `_azure_repo_from_origin` (lines 295-315). -/
def azureRepoFromOrigin (env : Env) : Option (String × String × String) :=
  match env.originUrl with
  | none => none
  | some raw =>
    let url := String.mk (pyStripWs raw.data)
    if url.data.isEmpty then none else azureUrlRepo url

/-- `_parse_story` (lines 83-120): identifier validation first, then file
lookup (direct `stories_dir/<id>.md`, else the recursive content scan,
abstracted as `env.storyScan`), then title resolution.  Returns
`(path, effective_title, content)`. -/
def parseStory (env : Env) (stories_dir story_id : String) :
    Except Err (String × String × String) :=
  if !storyIdMatch story_id then .error .invalidIdentifier
  else
    let direct : Option (String × String) :=
      env.storyDirect.map (fun c => (stories_dir ++ "/" ++ story_id ++ ".md", c))
    match (match direct with | some pc => some pc | none => env.storyScan) with
    | none => .error .notFound
    | some (path, content) =>
      .ok (path, effectiveTitle story_id content, content)

/-- `_state_path`, relative to the repo root (lines 461-462). -/
def statePath (story_id : String) : String :=
  "artifacts/autopilot/" ++ story_id ++ ".json"

/-- `_review_pack_path` (lines 465-466). -/
def reviewPackPath (story_id : String) : String :=
  "artifacts/review-pack/" ++ story_id ++ ".md"

/-! ## Provider network helpers

Each helper returns its result together with the HTTP calls it issued;
request payloads (issue/PR bodies, composed by the pure templating code at
lines 213-224, 515-543) are not recorded in the trace, so those strings are
not threaded through. -/

/-- `_github_find_or_create_issue` (lines 192-227): dry-run short-circuits
to the `{number: 0, html_url: "(dry-run)"}` placeholder with no request;
otherwise GET the search URL and return the first hit, else POST a new
issue. -/
def githubFindOrCreateIssue (env : Env) (api_url repo story_id story_title : String)
    (dry_run : Bool) : Option GhIssue × List HttpCall :=
  let q := pyQuote ("repo:" ++ repo ++ " " ++ story_id ++ " in:title type:issue")
  let search_url := api_url ++ "/search/issues?q=" ++ q
  if dry_run then
    (some { number := 0, html_url := "(dry-run)", title := story_id ++ ": " ++ story_title }, [])
  else
    match env.ghSearchItems with
    | item :: _ => (some item, [{ method := .get, url := search_url }])
    | [] =>
      let create_url := api_url ++ "/repos/" ++ repo ++ "/issues"
      (some env.ghCreatedIssue,
       [{ method := .get, url := search_url }, { method := .post, url := create_url }])

/-- `_github_create_pr` (lines 230-254). -/
def githubCreatePr (env : Env) (api_url repo title : String) (dry_run : Bool) :
    Option GhIssue × List HttpCall :=
  if dry_run then (some { number := 0, html_url := "(dry-run)", title := title }, [])
  else
    (some env.ghCreatedPr,
     [{ method := .post, url := api_url ++ "/repos/" ++ repo ++ "/pulls" }])

/-- `_github_upsert_pr_comment` (lines 257-283): the PR comment list is the
server state; the result is the updated list plus the calls issued.
`freshId` is the id the server assigns to a newly created comment.  The
listing at line 270 fetches a single page of at most 100 comments
(`?per_page=100`, oldest first, no pagination), so the marker search runs
over `comments.take 100` only; the PATCH (by comment id) and the POST
(append) still act on the full server-side list. -/
def githubUpsertPrComment (comments : List GhComment) (freshId : Nat)
    (api_url repo : String) (pr_number : Nat) (marker body : String)
    (dry_run : Bool) : List GhComment × List HttpCall :=
  if dry_run then (comments, [])
  else
    let list_url := api_url ++ "/repos/" ++ repo ++ "/issues/"
      ++ Nat.repr pr_number ++ "/comments?per_page=100"
    let page := comments.take 100
    let final_body := marker ++ "\n" ++ body
    match page.find? (fun c => pyContains c.body marker) with
    | some existing =>
      (comments.map (fun c => if c.id = existing.id then { c with body := final_body } else c),
       [{ method := .get, url := list_url },
        { method := .patch,
          url := api_url ++ "/repos/" ++ repo ++ "/issues/comments/" ++ Nat.repr existing.id }])
    | none =>
      (comments ++ [{ id := freshId, body := final_body }],
       [{ method := .get, url := list_url },
        { method := .post,
          url := api_url ++ "/repos/" ++ repo ++ "/issues/" ++ Nat.repr pr_number ++ "/comments" }])

/-- `_azure_wiql_find_work_item` (lines 318-337): dry-run returns `0` with no
request; otherwise POST the WIQL query and return the first item id, or
`None`. -/
def azureWiqlFindWorkItem (env : Env) (org_url project : String) (dry_run : Bool) :
    Option Nat × List HttpCall :=
  if dry_run then (some 0, [])
  else
    let url := org_url ++ "/" ++ project ++ "/_apis/wit/wiql?api-version=7.1-preview.2"
    match env.azWiqlItems with
    | [] => (none, [{ method := .post, url := url }])
    | i :: _ => (some i, [{ method := .post, url := url }])

/-- `_azure_create_work_item` (lines 340-369). -/
def azureCreateWorkItem (env : Env) (org_url project work_item_type : String)
    (dry_run : Bool) : Nat × List HttpCall :=
  if dry_run then (0, [])
  else
    (env.azCreatedWiId,
     [{ method := .post,
        url := org_url ++ "/" ++ project ++ "/_apis/wit/workitems/$"
          ++ pyQuote work_item_type ++ "?api-version=7.1-preview.3" }])

/-- `_azure_create_pr` (lines 372-397). -/
def azureCreatePr (env : Env) (org_url project repo title : String) (dry_run : Bool) :
    AzurePr × List HttpCall :=
  if dry_run then ({ pullRequestId := 0, url := "(dry-run)", title := title }, [])
  else
    (env.azCreatedPr,
     [{ method := .post,
        url := org_url ++ "/" ++ project ++ "/_apis/git/repositories/"
          ++ pyQuote repo ++ "/pullrequests?api-version=7.1-preview.1" }])

/-- `_azure_link_work_item_to_pr` (lines 400-423): no call when dry-run or
either id is zero; otherwise one PATCH whose payload carries
`azureArtifactUrl project repo pr_id`. -/
def azureLinkWorkItemToPr (org_url project : String) (work_item_id pr_id : Nat)
    (dry_run : Bool) : List HttpCall :=
  if dry_run = true ∨ work_item_id = 0 ∨ pr_id = 0 then []
  else
    [{ method := .patch,
       url := org_url ++ "/" ++ project ++ "/_apis/wit/workitems/"
         ++ Nat.repr work_item_id ++ "?api-version=7.1-preview.3" }]

/-- `_azure_post_pr_comment` (lines 426-444). -/
def azurePostPrComment (org_url project repo : String) (pr_id : Nat)
    (dry_run : Bool) : List HttpCall :=
  if dry_run = true ∨ pr_id = 0 then []
  else
    [{ method := .post,
       url := org_url ++ "/" ++ project ++ "/_apis/git/repositories/"
         ++ pyQuote repo ++ "/pullRequests/" ++ Nat.repr pr_id
         ++ "/threads?api-version=7.1-preview.1" }]

/-! ## The two integration blocks of `cmd_start` -/

/-- The GitHub integration block (lines 594-634): credential resolution
with argument-over-environment-over-origin precedence, the push
precondition, then issue search/creation and PR creation.  Returns the
provider state recorded on success, `none` when skipped for missing
credentials, and the HTTP calls issued. -/
def githubIntegration (env : Env) (args : StartArgs) (story_title : String) :
    Except Err (Option GhProviderState) × List HttpCall :=
  let token := pyOr (pyOr args.github_token (env.getenv "GITHUB_TOKEN")) (env.getenv "GH_TOKEN")
  let repo := pyOr (pyOr args.github_repo (env.getenv "GITHUB_REPOSITORY")) (githubRepoFromOrigin env)
  let api_url := orS (pyOr args.github_api_url (env.getenv "GITHUB_API_URL")) "https://api.github.com"
  if truthy token = false ∨ truthy repo = false then
    if args.require_integration then (.error .missingCredentialsGitHub, [])
    else (.ok none, [])
  else
    if args.push = false ∧ args.dry_run = false then (.error .pushRequired, [])
    else
      let rep := repo.getD ""
      let res1 := githubFindOrCreateIssue env api_url rep args.story_id story_title args.dry_run
      let res2 := githubCreatePr env api_url rep (args.story_id ++ ": " ++ story_title) args.dry_run
      (.ok (some { apiUrl := api_url, repo := rep, issue := res1.1, pr := res2.1 }),
       res1.2 ++ res2.2)

/-- The Azure DevOps integration block (lines 636-715): credential
resolution, origin inference only when org URL, project AND repo are all
absent, the push precondition, then work-item find-or-create, PR creation
and work-item/PR linking. -/
def azureIntegration (env : Env) (args : StartArgs) (story_title : String) :
    Except Err (Option AzProviderState) × List HttpCall :=
  let pat := pyOr args.azure_pat (env.getenv "AZURE_DEVOPS_PAT")
  let org_url0 := pyOr args.azure_org_url (env.getenv "AZURE_DEVOPS_ORG_URL")
  let project0 := pyOr args.azure_project (env.getenv "AZURE_DEVOPS_PROJECT")
  let repo0 := pyOr args.azure_repo (env.getenv "AZURE_DEVOPS_REPO")
  let wi_type := orS (pyOr args.azure_work_item_type (env.getenv "AZURE_DEVOPS_WORK_ITEM_TYPE"))
    "User Story"
  let merged :=
    if truthy org_url0 = false ∨ truthy project0 = false ∨ truthy repo0 = false then
      match azureRepoFromOrigin env with
      | some (o, p, r) =>
        if truthy org_url0 = false ∧ truthy project0 = false ∧ truthy repo0 = false then
          (some o, some p, some r)
        else (org_url0, project0, repo0)
      | none => (org_url0, project0, repo0)
    else (org_url0, project0, repo0)
  let org_url := merged.1
  let project := merged.2.1
  let repo := merged.2.2
  if truthy pat = false ∨ truthy org_url = false ∨ truthy project = false
      ∨ truthy repo = false then
    if args.require_integration then (.error .missingCredentialsAzure, [])
    else (.ok none, [])
  else
    if args.push = false ∧ args.dry_run = false then (.error .pushRequired, [])
    else
      let o := org_url.getD ""
      let p := project.getD ""
      let r := repo.getD ""
      let w := azureWiqlFindWorkItem env o p args.dry_run
      let wc :=
        match w.1 with
        | some i => (i, ([] : List HttpCall))
        | none => azureCreateWorkItem env o p wi_type args.dry_run
      let pr := azureCreatePr env o p r (args.story_id ++ ": " ++ story_title) args.dry_run
      let linkCalls := azureLinkWorkItemToPr o p wc.1 pr.1.pullRequestId args.dry_run
      (.ok (some { orgUrl := o, project := p, repo := r, workItemType := wi_type,
                   workItemId := wc.1, prId := pr.1.pullRequestId, prUrl := pr.1.url }),
       w.2 ++ wc.2 ++ pr.2 ++ linkCalls)

/-! ## `cmd_start` and `cmd_evidence` -/

/-- Console lines for the provider reference (lines 731-734; the Python
`print` renders the raw dicts, abstracted here). -/
def providerOutput : ProviderBlock → List String
  | .empty => []
  | .github g =>
    (match g.issue with
     | some i => ["github work item: #" ++ Nat.repr i.number ++ " " ++ i.html_url]
     | none => [])
    ++ (match g.pr with
        | some p => ["github PR: #" ++ Nat.repr p.number ++ " " ++ p.html_url]
        | none => [])
  | .azuredevops a =>
    ["azuredevops work item: " ++ Nat.repr a.workItemId,
     "azuredevops PR: " ++ Nat.repr a.prId ++ " " ++ a.prUrl]

/-- Provider resolution (lines 587-589): `auto` selects Azure DevOps when
the origin remote matches the Azure Repos shape, else GitHub. -/
def resolveProvider (env : Env) (args : StartArgs) : String :=
  if args.provider = "auto" then
    if (azureRepoFromOrigin env).isSome then "azuredevops" else "github"
  else args.provider

/-- Dispatch to the provider-specific integration block (lines 594-717),
wrapping the recorded provider state into a `ProviderBlock`; an unrecognised
provider string raises (line 717). -/
def runIntegration (env : Env) (args : StartArgs) (story_title : String) :
    Except Err ProviderBlock × List HttpCall :=
  let provider := resolveProvider env args
  if provider = "github" then
    match githubIntegration env args story_title with
    | (.error e, h) => (.error e, h)
    | (.ok none, h) => (.ok .empty, h)
    | (.ok (some g), h) => (.ok (.github g), h)
  else if provider = "azuredevops" then
    match azureIntegration env args story_title with
    | (.error e, h) => (.error e, h)
    | (.ok none, h) => (.ok .empty, h)
    | (.ok (some a), h) => (.ok (.azuredevops a), h)
  else (.error .unknownProvider, [])

/-- `cmd_start` (lines 546-735). -/
def cmd_start (env : Env) (args : StartArgs) : Except Err Unit × Effects :=
  match parseStory env args.stories_dir args.story_id with
  | .error e => (.error e, {})
  | .ok (story_file, story_title, _story_content) =>
    let branch := "feature/" ++ args.story_id ++ "-" ++ slugify story_title
    if args.dry_run = false ∧ requireCleanWorktree env args.allow_untracked = false then
      (.error .dirtyWorktree, {})
    else
      let git1 : List (List String) :=
        if args.dry_run then []
        else [["fetch", "origin", args.base_branch], ["checkout", args.base_branch],
              ["pull", "--ff-only"], ["checkout", "-b", branch]]
      let review_pack := reviewPackPath args.story_id
      let state_file := statePath args.story_id
      let state0 : StateRec :=
        { storyId := args.story_id, storyTitle := story_title, storyFile := story_file,
          branch := branch, baseBranch := args.base_branch, createdAt := env.now,
          provider := .empty }
      let files0 :=
        [(review_pack, FileData.reviewPack args.story_id story_title story_file env.now),
         (state_file, FileData.stateJson state0)]
      let git2 := git1 ++
        (if args.dry_run = false ∧ args.commit then
          [["add", review_pack, state_file],
           ["commit", "-m", args.story_id ++ ": start autopilot"]]
          ++ (if args.push then [["push", "-u", "origin", branch]] else [])
         else [])
      match runIntegration env args story_title with
      | (.error e, h) =>
        (.error e, { http := h, filesWritten := files0, gitCalls := git2 })
      | (.ok pblock, h) =>
        let state1 := { state0 with provider := pblock }
        let files1 := files0 ++ [(state_file, FileData.stateJson state1)]
        let git3 := git2 ++
          (if args.dry_run = false ∧ args.commit ∧ pblock ≠ ProviderBlock.empty then
            [["add", state_file],
             ["commit", "-m", args.story_id ++ ": link work item and PR"]]
            ++ (if args.push then [["push"]] else [])
           else [])
        (.ok (),
         { http := h, filesWritten := files1, gitCalls := git3,
           output := ["Story: " ++ args.story_id ++ ": " ++ story_title,
                      "Branch: " ++ branch,
                      "Review pack: " ++ review_pack,
                      "State: " ++ state_file]
                     ++ providerOutput pblock })

/-- `_local_evidence_summary` (lines 738-754). -/
def localEvidenceSummary (story_id story_title now : String) : String :=
  "## Evidence Pack — " ++ story_id ++ ": " ++ story_title
    ++ "\n\nGenerated: " ++ now
    ++ "\n\n### Commands\n- `./scripts/validate-project.sh`\n- `./scripts/validate-documentation.sh`\n- `./scripts/validate-rnd-policy.sh`\n- `python3 scripts/traceability/traceability.py validate --stories-dir artifacts/stories --tests-root .`\n\n### Notes\n- This comment is managed by AI Coding Factory Autopilot."

/-- The fixed evidence-comment marker (line 788). -/
def evidenceMarker : String := "<!-- acf-autopilot:evidence -->"

/-- `cmd_evidence` (lines 757-834). -/
def cmd_evidence (env : Env) (args : EvidenceArgs) : Except Err Unit × Effects :=
  match env.stateFile with
  | none => (.error .notFound, {})
  | some state =>
    let story_title := state.storyTitle
    let localCmds : List String :=
      if args.run_local then
        ["git status", "bash scripts/validate-project.sh",
         "bash scripts/validate-documentation.sh",
         "bash scripts/validate-rnd-policy.sh",
         "python3 scripts/traceability/traceability.py validate"]
        ++ (if args.full_verify then ["bash scripts/scaffold-and-verify.sh"] else [])
      else []
    let marker := evidenceMarker
    let comment := localEvidenceSummary args.story_id story_title env.now
    match state.provider with
    | .empty => (.error .noProviderConfigured, { localRuns := localCmds })
    | .github g =>
      let token := pyOr (pyOr args.github_token (env.getenv "GITHUB_TOKEN"))
        (env.getenv "GH_TOKEN")
      let api_url := orS (pyOr (some g.apiUrl) (env.getenv "GITHUB_API_URL"))
        "https://api.github.com"
      let pr_number := match g.pr with | some p => p.number | none => 0
      if truthy token = false ∨ g.repo.isEmpty ∨ pr_number = 0 then
        (.error .missingProviderInfo, { localRuns := localCmds })
      else
        let res := githubUpsertPrComment env.ghComments env.ghNextCommentId api_url
          g.repo pr_number marker comment args.dry_run
        (.ok (), { http := res.2, localRuns := localCmds,
                   output := ["Updated GitHub PR comment for PR #" ++ Nat.repr pr_number] })
    | .azuredevops a =>
      let pat := pyOr args.azure_pat (env.getenv "AZURE_DEVOPS_PAT")
      let org_url := pyOr (some a.orgUrl) (env.getenv "AZURE_DEVOPS_ORG_URL")
      let project := pyOr (some a.project) (env.getenv "AZURE_DEVOPS_PROJECT")
      let repo := pyOr (some a.repo) (env.getenv "AZURE_DEVOPS_REPO")
      let pr_id := a.prId
      if truthy pat = false ∨ truthy org_url = false ∨ truthy project = false
          ∨ truthy repo = false ∨ pr_id = 0 then
        (.error .missingProviderInfo, { localRuns := localCmds })
      else
        let calls := azurePostPrComment (org_url.getD "") (project.getD "")
          (repo.getD "") pr_id args.dry_run
        (.ok (), { http := calls, localRuns := localCmds,
                   output := ["Posted Azure DevOps PR thread comment for PR "
                     ++ Nat.repr pr_id] })

/-! ## Supporting lemmas for the orchestrator -/

theorem githubIntegration_dry (env : Env) (args : StartArgs) (st : String)
    (hd : args.dry_run = true) (hr : args.require_integration = false) :
    ∃ ob, githubIntegration env args st = (Except.ok ob, []) := by
  simp only [githubIntegration, hd, hr]
  split
  · exact ⟨none, by simp⟩
  · simp [githubFindOrCreateIssue, githubCreatePr]

theorem azureIntegration_dry (env : Env) (args : StartArgs) (st : String)
    (hd : args.dry_run = true) (hr : args.require_integration = false) :
    ∃ ob, azureIntegration env args st = (Except.ok ob, []) := by
  simp only [azureIntegration, hd, hr]
  repeat' split
  all_goals
    simp_all [azureWiqlFindWorkItem, azureCreateWorkItem, azureCreatePr,
      azureLinkWorkItemToPr]

theorem runIntegration_dry (env : Env) (args : StartArgs) (st : String)
    (hd : args.dry_run = true) (hr : args.require_integration = false)
    (hprov : args.provider = "auto" ∨ args.provider = "github"
      ∨ args.provider = "azuredevops") :
    ∃ pb, runIntegration env args st = (Except.ok pb, []) := by
  obtain ⟨og, hog⟩ := githubIntegration_dry env args st hd hr
  obtain ⟨oa, hoa⟩ := azureIntegration_dry env args st hd hr
  rcases hprov with h | h | h
  · by_cases hz : (azureRepoFromOrigin env).isSome
    · cases oa with
      | none => exact ⟨.empty, by simp [runIntegration, resolveProvider, h, hz, hoa]⟩
      | some a =>
        exact ⟨.azuredevops a, by simp [runIntegration, resolveProvider, h, hz, hoa]⟩
    · cases og with
      | none => exact ⟨.empty, by simp [runIntegration, resolveProvider, h, hz, hog]⟩
      | some g =>
        exact ⟨.github g, by simp [runIntegration, resolveProvider, h, hz, hog]⟩
  · cases og with
    | none => exact ⟨.empty, by simp [runIntegration, resolveProvider, h, hog]⟩
    | some g => exact ⟨.github g, by simp [runIntegration, resolveProvider, h, hog]⟩
  · cases oa with
    | none => exact ⟨.empty, by simp [runIntegration, resolveProvider, h, hoa]⟩
    | some a => exact ⟨.azuredevops a, by simp [runIntegration, resolveProvider, h, hoa]⟩

theorem cmd_start_ok (env : Env) (args : StartArgs) (p t c : String)
    (pb : ProviderBlock) (calls : List HttpCall)
    (hparse : parseStory env args.stories_dir args.story_id = Except.ok (p, t, c))
    (hclean : ¬(args.dry_run = false ∧ requireCleanWorktree env args.allow_untracked = false))
    (hint : runIntegration env args t = (Except.ok pb, calls)) :
    (cmd_start env args).1 = Except.ok ()
    ∧ (cmd_start env args).2.http = calls
    ∧ (∃ st : StateRec,
        (statePath args.story_id, FileData.stateJson st) ∈ (cmd_start env args).2.filesWritten
        ∧ st.provider = pb)
    ∧ (∀ st : StateRec,
        (statePath args.story_id, FileData.stateJson st) ∈ (cmd_start env args).2.filesWritten
        → st.provider = ProviderBlock.empty ∨ st.provider = pb) := by
  refine ⟨by simp [cmd_start, hparse, hclean, hint],
    by simp [cmd_start, hparse, hclean, hint], ?_, ?_⟩
  · refine ⟨⟨args.story_id, t, p, "feature/" ++ args.story_id ++ "-" ++ slugify t,
      args.base_branch, env.now, pb⟩, ?_, rfl⟩
    simp [cmd_start, hparse, hclean, hint]
  · intro st hmem
    simp [cmd_start, hparse, hclean, hint] at hmem
    rcases hmem with rfl | rfl
    · left
      rfl
    · right
      rfl

/-- Projection used to observe which org/project/repo an Azure provider
block records. -/
def azureTripleOf : ProviderBlock → Option (String × String × String)
  | .azuredevops a => some (a.orgUrl, a.project, a.repo)
  | _ => none

theorem azureIntegration_partial (env : Env) (args : StartArgs) (t : String)
    (o pr rp : String)
    (horigin : azureRepoFromOrigin env = some (o, pr, rp))
    (hpat : truthy (pyOr args.azure_pat (env.getenv "AZURE_DEVOPS_PAT")) = true)
    (hsome : truthy (pyOr args.azure_org_url (env.getenv "AZURE_DEVOPS_ORG_URL")) = true
      ∨ truthy (pyOr args.azure_project (env.getenv "AZURE_DEVOPS_PROJECT")) = true
      ∨ truthy (pyOr args.azure_repo (env.getenv "AZURE_DEVOPS_REPO")) = true)
    (hmiss : truthy (pyOr args.azure_org_url (env.getenv "AZURE_DEVOPS_ORG_URL")) = false
      ∨ truthy (pyOr args.azure_project (env.getenv "AZURE_DEVOPS_PROJECT")) = false
      ∨ truthy (pyOr args.azure_repo (env.getenv "AZURE_DEVOPS_REPO")) = false) :
    azureIntegration env args t =
      ((if args.require_integration then Except.error Err.missingCredentialsAzure
        else Except.ok none), []) := by
  cases hri : args.require_integration <;>
    rcases hsome with hs | hs | hs <;> rcases hmiss with hm | hm | hm <;>
      simp_all [azureIntegration, horigin, hpat]

theorem azureIntegration_inferred (env : Env) (args : StartArgs) (t : String)
    (o pr rp : String)
    (horigin : azureRepoFromOrigin env = some (o, pr, rp))
    (hpat : truthy (pyOr args.azure_pat (env.getenv "AZURE_DEVOPS_PAT")) = true)
    (h1 : truthy (pyOr args.azure_org_url (env.getenv "AZURE_DEVOPS_ORG_URL")) = false)
    (h2 : truthy (pyOr args.azure_project (env.getenv "AZURE_DEVOPS_PROJECT")) = false)
    (h3 : truthy (pyOr args.azure_repo (env.getenv "AZURE_DEVOPS_REPO")) = false)
    (ho : o.isEmpty = false) (hpr : pr.isEmpty = false) (hrp : rp.isEmpty = false)
    (hpush : args.push = true ∨ args.dry_run = true) :
    ∃ a calls, azureIntegration env args t = (Except.ok (some a), calls)
      ∧ a.orgUrl = o ∧ a.project = pr ∧ a.repo = rp := by
  rcases hpush with hp | hp <;>
    simp [azureIntegration, horigin, h1, h2, h3, hpat,
      show truthy (some o) = !o.isEmpty from rfl,
      show truthy (some pr) = !pr.isEmpty from rfl,
      show truthy (some rp) = !rp.isEmpty from rfl,
      ho, hpr, hrp, hp]

theorem data_append (s t : String) : (s ++ t).data = s.data ++ t.data := rfl

theorem pyContains_self_marker (m b : String) :
    pyContains (m ++ "\n" ++ b) m = true := by
  unfold pyContains
  rw [decide_eq_true_iff]
  have h : (m ++ "\n" ++ b).data = m.data ++ ("\n".data ++ b.data) := by
    rw [data_append, data_append, List.append_assoc]
  rw [h]
  exact (List.prefix_append m.data _).isInfix

theorem upsert_first (cs : List GhComment) (f1 : Nat) (api repo : String) (n : Nat)
    (b1 : String)
    (hall : ∀ cc ∈ cs, pyContains cc.body evidenceMarker = false) :
    (githubUpsertPrComment cs f1 api repo n evidenceMarker b1 false).1
      = cs ++ [⟨f1, evidenceMarker ++ "\n" ++ b1⟩] := by
  have hf1 : (cs.take 100).find? (fun cc => pyContains cc.body evidenceMarker) = none :=
    List.find?_eq_none.mpr (fun x hx => by simp [hall x (List.take_subset 100 cs hx)])
  simp [githubUpsertPrComment, hf1]

theorem upsert_second (cs : List GhComment) (f1 f2 : Nat) (api repo : String) (n : Nat)
    (b1 b2 : String)
    (hall : ∀ cc ∈ cs, pyContains cc.body evidenceMarker = false)
    (hfresh : f1 ∉ cs.map (fun cc => cc.id))
    (hlen : cs.length < 100) :
    (githubUpsertPrComment (cs ++ [⟨f1, evidenceMarker ++ "\n" ++ b1⟩]) f2 api repo n
        evidenceMarker b2 false).1
      = cs ++ [⟨f1, evidenceMarker ++ "\n" ++ b2⟩] := by
  have hf1 : cs.find? (fun cc => pyContains cc.body evidenceMarker) = none :=
    List.find?_eq_none.mpr (fun x hx => by simp [hall x hx])
  have hpage : (cs ++ [(⟨f1, evidenceMarker ++ "\n" ++ b1⟩ : GhComment)]).take 100
      = cs ++ [⟨f1, evidenceMarker ++ "\n" ++ b1⟩] :=
    List.take_of_length_le (by simp; omega)
  have hfind : ((cs ++ [(⟨f1, evidenceMarker ++ "\n" ++ b1⟩ : GhComment)]).take 100).find?
      (fun cc => pyContains cc.body evidenceMarker)
      = some ⟨f1, evidenceMarker ++ "\n" ++ b1⟩ := by
    rw [hpage, List.find?_append, hf1]
    simp [List.find?, pyContains_self_marker]
  have hmap : cs.map (fun cc =>
      if cc.id = f1 then { cc with body := evidenceMarker ++ "\n" ++ b2 } else cc) = cs := by
    have h1 : ∀ cc ∈ cs, (if cc.id = f1 then
        ({ cc with body := evidenceMarker ++ "\n" ++ b2 } : GhComment) else cc) = id cc := by
      intro cc hcc
      have : cc.id ≠ f1 := by
        intro he
        exact hfresh (he ▸ List.mem_map_of_mem (fun c => c.id) hcc)
      simp [this]
    rw [List.map_congr_left h1, List.map_id]
  simp only [githubUpsertPrComment, hfind]
  simp [hmap]

theorem upsert_count (cs : List GhComment) (f1 : Nat) (b : String)
    (hall : ∀ cc ∈ cs, pyContains cc.body evidenceMarker = false) :
    (cs ++ [(⟨f1, evidenceMarker ++ "\n" ++ b⟩ : GhComment)]).countP
      (fun cc => pyContains cc.body evidenceMarker) = 1 := by
  rw [List.countP_append]
  have h0 : cs.countP (fun cc => pyContains cc.body evidenceMarker) = 0 :=
    List.countP_eq_zero.mpr (fun x hx => by simp [hall x hx])
  rw [h0]
  simp [List.countP, List.countP.go, pyContains_self_marker]

/-! ## Concrete environments used by the witnesses -/

def sampleEnv : Env :=
  { statusLines := []
    originUrl := some "https://github.com/acme/widgets.git"
    getenv := fun _ => none
    storyDirect := some "# ACF-3: Demo story"
    storyScan := none
    now := "2026-01-01T00:00:00Z"
    ghSearchItems := []
    ghCreatedIssue := { number := 11, html_url := "issue-url", title := "it" }
    ghCreatedPr := { number := 5, html_url := "pr-url", title := "pt" }
    ghComments := []
    ghNextCommentId := 1
    azWiqlItems := []
    azCreatedWiId := 7
    azCreatedPr := { pullRequestId := 3, url := "azpr-url", title := "azt" }
    stateFile := none }

def azSampleEnv : Env :=
  { sampleEnv with originUrl := some "https://dev.azure.com/acme/proj/_git/widgets" }

def startDryArgs : StartArgs := { story_id := "ACF-3", dry_run := true }

def startGhNoPushArgs : StartArgs :=
  { story_id := "ACF-3", provider := "github",
    github_token := some "tok", github_repo := some "acme/widgets" }

def startAzNoPushArgs : StartArgs :=
  { story_id := "ACF-3", provider := "azuredevops",
    azure_pat := some "pat", azure_org_url := some "https://dev.azure.com/acme",
    azure_project := some "proj", azure_repo := some "widgets" }

def startAzInferArgs : StartArgs :=
  { story_id := "ACF-3", provider := "azuredevops", dry_run := true,
    azure_pat := some "pat" }

def startAzPartialArgs : StartArgs :=
  { story_id := "ACF-3", provider := "azuredevops", dry_run := true,
    azure_pat := some "pat", azure_project := some "proj",
    require_integration := true }

def emptyProviderState : StateRec :=
  { storyId := "ACF-3", storyTitle := "Demo story",
    storyFile := "artifacts/stories/ACF-3.md", branch := "feature/ACF-3-demo-story",
    baseBranch := "main", createdAt := "2026-01-01T00:00:00Z",
    provider := ProviderBlock.empty }

def evidenceEnv : Env := { sampleEnv with stateFile := some emptyProviderState }

/-! ## Claim theorems C1, C2, C3 -/

/-- Claim C1: for every valid work-item identifier, `start --dry-run` (the
plain dry-run invocation: `require_integration` at its default `false`,
provider one of the three accepted values) issues no HTTP request, still
writes both the ReviewPack file and the state file, and prints a summary
line containing the branch name `feature/<id>-<slug>`; moreover every
network-calling helper, under dry-run, returns its synthetic placeholder
(id 0, `"(dry-run)"` URL marker) and issues no request. -/
theorem start_dry_run_offline :
    (∀ (env : Env) (args : StartArgs) (p t c : String),
      storyIdMatch args.story_id = true →
      args.dry_run = true →
      args.require_integration = false →
      (args.provider = "auto" ∨ args.provider = "github"
        ∨ args.provider = "azuredevops") →
      parseStory env args.stories_dir args.story_id = Except.ok (p, t, c) →
      (cmd_start env args).1 = Except.ok ()
      ∧ (cmd_start env args).2.http = []
      ∧ (∃ d, (reviewPackPath args.story_id, d) ∈ (cmd_start env args).2.filesWritten)
      ∧ (∃ d, (statePath args.story_id, d) ∈ (cmd_start env args).2.filesWritten)
      ∧ ("Branch: " ++ ("feature/" ++ args.story_id ++ "-" ++ slugify t))
          ∈ (cmd_start env args).2.output)
    ∧ (∀ (env : Env) (api repo sid st : String),
        githubFindOrCreateIssue env api repo sid st true
          = (some ⟨0, "(dry-run)", sid ++ ": " ++ st⟩, []))
    ∧ (∀ (env : Env) (api repo ti : String),
        githubCreatePr env api repo ti true = (some ⟨0, "(dry-run)", ti⟩, []))
    ∧ (∀ (env : Env) (o p : String), azureWiqlFindWorkItem env o p true = (some 0, []))
    ∧ (∀ (env : Env) (o p w : String), azureCreateWorkItem env o p w true = (0, []))
    ∧ (∀ (env : Env) (o p r ti : String),
        azureCreatePr env o p r ti true = (⟨0, "(dry-run)", ti⟩, []))
    ∧ (∀ (o p : String) (wi pid : Nat), azureLinkWorkItemToPr o p wi pid true = [])
    ∧ (∀ (cs : List GhComment) (f : Nat) (api repo : String) (n : Nat) (m b : String),
        githubUpsertPrComment cs f api repo n m b true = (cs, [])) := by
  refine ⟨?_, fun _ _ _ _ _ => rfl, fun _ _ _ _ => rfl, fun _ _ _ => rfl,
    fun _ _ _ _ => rfl, fun _ _ _ _ _ => rfl, fun _ _ _ _ => rfl,
    fun _ _ _ _ _ _ _ => rfl⟩
  intro env args p t c hm hd hr hprov hparse
  obtain ⟨pb, hint⟩ := runIntegration_dry env args t hd hr hprov
  simp only [cmd_start, hparse, hd, hint]
  refine ⟨by simp, by simp,
    ⟨FileData.reviewPack args.story_id t p env.now, by simp⟩,
    ⟨FileData.stateJson ⟨args.story_id, t, p,
        "feature/" ++ args.story_id ++ "-" ++ slugify t,
        args.base_branch, env.now, ProviderBlock.empty⟩, by simp⟩,
    by simp⟩

/-- Witness for `start_dry_run_offline` at a concrete story and environment. -/
theorem start_dry_run_offline_witness :
    (cmd_start sampleEnv startDryArgs).1 = Except.ok ()
    ∧ (cmd_start sampleEnv startDryArgs).2.http = []
    ∧ (∃ d, (reviewPackPath "ACF-3", d) ∈ (cmd_start sampleEnv startDryArgs).2.filesWritten)
    ∧ (∃ d, (statePath "ACF-3", d) ∈ (cmd_start sampleEnv startDryArgs).2.filesWritten)
    ∧ ("Branch: " ++ ("feature/" ++ "ACF-3" ++ "-" ++ slugify "Demo story"))
        ∈ (cmd_start sampleEnv startDryArgs).2.output :=
  start_dry_run_offline.1 sampleEnv startDryArgs "artifacts/stories/ACF-3.md"
    "Demo story" "# ACF-3: Demo story" (by decide) rfl rfl (Or.inl rfl) rfl

/-- Claim C2: in a non-dry-run `start` with the push flag unset, on a clean
worktree, with provider credentials present, the run fails with PushRequired
and issues NO HTTP request at all (in particular none that creates a PR),
for both the GitHub and the Azure DevOps integration paths. -/
theorem pr_creation_requires_push :
    (∀ (env : Env) (args : StartArgs) (p t c : String),
      args.dry_run = false → args.push = false →
      args.provider = "github" →
      truthy (pyOr (pyOr args.github_token (env.getenv "GITHUB_TOKEN"))
        (env.getenv "GH_TOKEN")) = true →
      truthy (pyOr (pyOr args.github_repo (env.getenv "GITHUB_REPOSITORY"))
        (githubRepoFromOrigin env)) = true →
      parseStory env args.stories_dir args.story_id = Except.ok (p, t, c) →
      requireCleanWorktree env args.allow_untracked = true →
      (cmd_start env args).1 = Except.error Err.pushRequired
      ∧ (cmd_start env args).2.http = [])
    ∧ (∀ (env : Env) (args : StartArgs) (p t c : String),
      args.dry_run = false → args.push = false →
      args.provider = "azuredevops" →
      truthy (pyOr args.azure_pat (env.getenv "AZURE_DEVOPS_PAT")) = true →
      truthy (pyOr args.azure_org_url (env.getenv "AZURE_DEVOPS_ORG_URL")) = true →
      truthy (pyOr args.azure_project (env.getenv "AZURE_DEVOPS_PROJECT")) = true →
      truthy (pyOr args.azure_repo (env.getenv "AZURE_DEVOPS_REPO")) = true →
      parseStory env args.stories_dir args.story_id = Except.ok (p, t, c) →
      requireCleanWorktree env args.allow_untracked = true →
      (cmd_start env args).1 = Except.error Err.pushRequired
      ∧ (cmd_start env args).2.http = []) := by
  constructor
  · intro env args p t c hd hp hprov htok hrepo hparse hclean
    have hint : githubIntegration env args t = (Except.error Err.pushRequired, []) := by
      simp [githubIntegration, htok, hrepo, hp, hd]
    have hrun : runIntegration env args t = (Except.error Err.pushRequired, []) := by
      simp [runIntegration, resolveProvider, hprov, hint]
    simp [cmd_start, hparse, hd, hclean, hrun]
  · intro env args p t c hd hp hprov hpat horg hproj hrep hparse hclean
    have hint : azureIntegration env args t = (Except.error Err.pushRequired, []) := by
      simp [azureIntegration, hpat, horg, hproj, hrep, hp, hd]
    have hrun : runIntegration env args t = (Except.error Err.pushRequired, []) := by
      simp [runIntegration, resolveProvider, hprov, hint]
    simp [cmd_start, hparse, hd, hclean, hrun]

/-- Witness for `pr_creation_requires_push` on both provider paths. -/
theorem pr_creation_requires_push_witness :
    ((cmd_start sampleEnv startGhNoPushArgs).1 = Except.error Err.pushRequired
      ∧ (cmd_start sampleEnv startGhNoPushArgs).2.http = [])
    ∧ ((cmd_start sampleEnv startAzNoPushArgs).1 = Except.error Err.pushRequired
      ∧ (cmd_start sampleEnv startAzNoPushArgs).2.http = []) :=
  ⟨pr_creation_requires_push.1 sampleEnv startGhNoPushArgs
      "artifacts/stories/ACF-3.md" "Demo story" "# ACF-3: Demo story"
      rfl rfl rfl (by decide) (by decide) rfl (by decide),
   pr_creation_requires_push.2 sampleEnv startAzNoPushArgs
      "artifacts/stories/ACF-3.md" "Demo story" "# ACF-3: Demo story"
      rfl rfl rfl (by decide) (by decide) (by decide) (by decide) rfl (by decide)⟩

/-- Claim C3: for every identifier not matching `^ACF-\d+$`, `start` fails
with InvalidIdentifier before any filesystem or network effect: no file is
written and no HTTP request is issued. -/
theorem invalid_identifier_no_effects :
    ∀ (env : Env) (args : StartArgs), storyIdMatch args.story_id = false →
      (cmd_start env args).1 = Except.error Err.invalidIdentifier
      ∧ (cmd_start env args).2.filesWritten = []
      ∧ (cmd_start env args).2.http = [] := by
  intro env args h
  simp [cmd_start, parseStory, h]

/-- Witness for `invalid_identifier_no_effects` at the identifier `"bogus"`. -/
theorem invalid_identifier_no_effects_witness :
    (cmd_start sampleEnv { story_id := "bogus" }).1 = Except.error Err.invalidIdentifier
    ∧ (cmd_start sampleEnv { story_id := "bogus" }).2.filesWritten = []
    ∧ (cmd_start sampleEnv { story_id := "bogus" }).2.http = [] :=
  invalid_identifier_no_effects sampleEnv { story_id := "bogus" } (by decide)

/-! ## Claim theorems C4, C9, C10 -/

/-- The PR comment list that refutes claim C4 as stated: one hundred
pre-existing comments, none containing the marker, so the comment the first
`evidence` run appends lies beyond the single listed page. -/
def manyComments : List GhComment :=
  (List.range 100).map (fun i => { id := i + 1, body := "old" })

/-- Claim C4 counterexample: on a PR that already has 100 marker-free
comments, the first `evidence` run appends the marker comment at position
101 — beyond the one `per_page=100` page the code lists (line 270) — so the
second run does not find it and POSTs a second marker comment instead of
updating in place: afterwards two comments contain the marker and the
comment count grew again. -/
theorem github_upsert_pagination_counterexample :
    ((githubUpsertPrComment
        (githubUpsertPrComment manyComments 101 "a" "r" 9 evidenceMarker "b1" false).1
        102 "a" "r" 9 evidenceMarker "b2" false).1).countP
        (fun cc => pyContains cc.body evidenceMarker) = 2
    ∧ ((githubUpsertPrComment
        (githubUpsertPrComment manyComments 101 "a" "r" 9 evidenceMarker "b1" false).1
        102 "a" "r" 9 evidenceMarker "b2" false).1).length
      = ((githubUpsertPrComment manyComments 101 "a" "r" 9 evidenceMarker
          "b1" false).1).length + 1 := by
  exact ⟨by decide, by decide⟩

/-- Claim C4 (amended): the GitHub evidence-comment upsert is idempotent
PROVIDED the PR has fewer than 100 pre-existing comments, so that the
comment appended by the first run falls inside the single
`per_page=100` page the code lists.  Then, starting from comments that
contain no marker comment (and whose ids do not collide with the fresh id),
the first run appends exactly one comment `marker\n\,body1`; the second run
finds that comment and PATCHes it in place: the final list is the original
comments plus the SAME comment id with the new body, its length equals the
length after the first run (no second comment is created), and exactly one
comment contains the marker. -/
theorem github_upsert_idempotent :
    ∀ (cs : List GhComment) (f1 f2 : Nat) (api repo : String) (n : Nat) (b1 b2 : String),
      (∀ cc ∈ cs, pyContains cc.body evidenceMarker = false) →
      f1 ∉ cs.map (fun cc => cc.id) →
      cs.length < 100 →
      (githubUpsertPrComment cs f1 api repo n evidenceMarker b1 false).1
          = cs ++ [⟨f1, evidenceMarker ++ "\n" ++ b1⟩]
      ∧ (githubUpsertPrComment
            (githubUpsertPrComment cs f1 api repo n evidenceMarker b1 false).1
            f2 api repo n evidenceMarker b2 false).1
          = cs ++ [⟨f1, evidenceMarker ++ "\n" ++ b2⟩]
      ∧ ((githubUpsertPrComment
            (githubUpsertPrComment cs f1 api repo n evidenceMarker b1 false).1
            f2 api repo n evidenceMarker b2 false).1).countP
            (fun cc => pyContains cc.body evidenceMarker) = 1
      ∧ ((githubUpsertPrComment
            (githubUpsertPrComment cs f1 api repo n evidenceMarker b1 false).1
            f2 api repo n evidenceMarker b2 false).1).length
          = ((githubUpsertPrComment cs f1 api repo n evidenceMarker b1 false).1).length := by
  intro cs f1 f2 api repo n b1 b2 hall hfresh hlen
  have h1 := upsert_first cs f1 api repo n b1 hall
  have h2 : (githubUpsertPrComment
      (githubUpsertPrComment cs f1 api repo n evidenceMarker b1 false).1
      f2 api repo n evidenceMarker b2 false).1
      = cs ++ [⟨f1, evidenceMarker ++ "\n" ++ b2⟩] := by
    rw [h1]
    exact upsert_second cs f1 f2 api repo n b1 b2 hall hfresh hlen
  refine ⟨h1, h2, ?_, ?_⟩
  · rw [h2]
    exact upsert_count cs f1 b2 hall
  · rw [h2, h1]
    simp

/-- Witness for `github_upsert_idempotent` on a one-comment PR. -/
theorem github_upsert_idempotent_witness :
    (githubUpsertPrComment [⟨1, "hello"⟩] 2 "a" "r" 9 evidenceMarker "b1" false).1
        = [⟨1, "hello"⟩, ⟨2, evidenceMarker ++ "\n" ++ "b1"⟩]
    ∧ (githubUpsertPrComment
          (githubUpsertPrComment [⟨1, "hello"⟩] 2 "a" "r" 9 evidenceMarker "b1" false).1
          3 "a" "r" 9 evidenceMarker "b2" false).1
        = [⟨1, "hello"⟩, ⟨2, evidenceMarker ++ "\n" ++ "b2"⟩]
    ∧ ((githubUpsertPrComment
          (githubUpsertPrComment [⟨1, "hello"⟩] 2 "a" "r" 9 evidenceMarker "b1" false).1
          3 "a" "r" 9 evidenceMarker "b2" false).1).countP
          (fun cc => pyContains cc.body evidenceMarker) = 1
    ∧ ((githubUpsertPrComment
          (githubUpsertPrComment [⟨1, "hello"⟩] 2 "a" "r" 9 evidenceMarker "b1" false).1
          3 "a" "r" 9 evidenceMarker "b2" false).1).length
        = ((githubUpsertPrComment [⟨1, "hello"⟩] 2 "a" "r" 9 evidenceMarker "b1" false).1).length :=
  github_upsert_idempotent [⟨1, "hello"⟩] 2 3 "a" "r" 9 "b1" "b2"
    (by decide) (by decide) (by decide)

/-- Claim C9: `evidence` on a work item whose persisted state records no
provider fails with NoProviderConfigured and issues no HTTP request. -/
theorem evidence_no_provider :
    ∀ (env : Env) (args : EvidenceArgs) (st : StateRec),
      env.stateFile = some st →
      st.provider = ProviderBlock.empty →
      (cmd_evidence env args).1 = Except.error Err.noProviderConfigured
      ∧ (cmd_evidence env args).2.http = [] := by
  intro env args st hst hprov
  simp [cmd_evidence, hst, hprov]

/-- Witness for `evidence_no_provider` on a concrete state file. -/
theorem evidence_no_provider_witness :
    (cmd_evidence evidenceEnv { story_id := "ACF-3" }).1
      = Except.error Err.noProviderConfigured
    ∧ (cmd_evidence evidenceEnv { story_id := "ACF-3" }).2.http = [] :=
  evidence_no_provider evidenceEnv { story_id := "ACF-3" } emptyProviderState rfl rfl

/-- Claim C10: in `start` with the Azure DevOps provider, the org URL,
project and repo are inferred from the origin remote only when all three
are absent (argument and environment); the inferred triple is then recorded
in the persisted provider block.  If at least one of them is supplied while
another is missing, no inference occurs even though the origin would have
provided a full triple: with `require-integration` the run fails with
MissingCredentials, otherwise the integration is silently skipped (no HTTP
request, provider block left empty in every state write). -/
theorem azure_inference_all_or_nothing :
    (∀ (env : Env) (args : StartArgs) (p t c o pr rp : String),
      args.provider = "azuredevops" →
      parseStory env args.stories_dir args.story_id = Except.ok (p, t, c) →
      ¬(args.dry_run = false ∧ requireCleanWorktree env args.allow_untracked = false) →
      (args.push = true ∨ args.dry_run = true) →
      azureRepoFromOrigin env = some (o, pr, rp) →
      truthy (pyOr args.azure_pat (env.getenv "AZURE_DEVOPS_PAT")) = true →
      truthy (pyOr args.azure_org_url (env.getenv "AZURE_DEVOPS_ORG_URL")) = false →
      truthy (pyOr args.azure_project (env.getenv "AZURE_DEVOPS_PROJECT")) = false →
      truthy (pyOr args.azure_repo (env.getenv "AZURE_DEVOPS_REPO")) = false →
      o.isEmpty = false → pr.isEmpty = false → rp.isEmpty = false →
      (cmd_start env args).1 = Except.ok ()
      ∧ ∃ st : StateRec,
          (statePath args.story_id, FileData.stateJson st)
            ∈ (cmd_start env args).2.filesWritten
          ∧ azureTripleOf st.provider = some (o, pr, rp))
    ∧ (∀ (env : Env) (args : StartArgs) (p t c o pr rp : String),
      args.provider = "azuredevops" →
      parseStory env args.stories_dir args.story_id = Except.ok (p, t, c) →
      ¬(args.dry_run = false ∧ requireCleanWorktree env args.allow_untracked = false) →
      azureRepoFromOrigin env = some (o, pr, rp) →
      truthy (pyOr args.azure_pat (env.getenv "AZURE_DEVOPS_PAT")) = true →
      (truthy (pyOr args.azure_org_url (env.getenv "AZURE_DEVOPS_ORG_URL")) = true
        ∨ truthy (pyOr args.azure_project (env.getenv "AZURE_DEVOPS_PROJECT")) = true
        ∨ truthy (pyOr args.azure_repo (env.getenv "AZURE_DEVOPS_REPO")) = true) →
      (truthy (pyOr args.azure_org_url (env.getenv "AZURE_DEVOPS_ORG_URL")) = false
        ∨ truthy (pyOr args.azure_project (env.getenv "AZURE_DEVOPS_PROJECT")) = false
        ∨ truthy (pyOr args.azure_repo (env.getenv "AZURE_DEVOPS_REPO")) = false) →
      ((args.require_integration = true →
          (cmd_start env args).1 = Except.error Err.missingCredentialsAzure)
       ∧ (args.require_integration = false →
          (cmd_start env args).1 = Except.ok ()
          ∧ (cmd_start env args).2.http = []
          ∧ ∀ st : StateRec,
              (statePath args.story_id, FileData.stateJson st)
                ∈ (cmd_start env args).2.filesWritten
              → st.provider = ProviderBlock.empty))) := by
  constructor
  · intro env args p t c o pr rp hprov hparse hclean hpush horigin hpat h1 h2 h3 ho hpr hrp
    obtain ⟨a, calls, hintA, hao, hap, har⟩ :=
      azureIntegration_inferred env args t o pr rp horigin hpat h1 h2 h3 ho hpr hrp hpush
    have hrun : runIntegration env args t = (Except.ok (ProviderBlock.azuredevops a), calls) := by
      simp [runIntegration, resolveProvider, hprov, hintA]
    obtain ⟨hok, _, ⟨st, hmem, hstpb⟩, _⟩ :=
      cmd_start_ok env args p t c (ProviderBlock.azuredevops a) calls hparse hclean hrun
    refine ⟨hok, st, hmem, ?_⟩
    rw [hstpb]
    simp [azureTripleOf, hao, hap, har]
  · intro env args p t c o pr rp hprov hparse hclean horigin hpat hsome hmiss
    have hpart := azureIntegration_partial env args t o pr rp horigin hpat hsome hmiss
    constructor
    · intro hreq
      have hrun : runIntegration env args t
          = (Except.error Err.missingCredentialsAzure, []) := by
        simp [runIntegration, resolveProvider, hprov, hpart, hreq]
      simp [cmd_start, hparse, hclean, hrun]
    · intro hreq
      have hrun : runIntegration env args t = (Except.ok ProviderBlock.empty, []) := by
        simp [runIntegration, resolveProvider, hprov, hpart, hreq]
      obtain ⟨hok, hhttp, _, hall⟩ :=
        cmd_start_ok env args p t c ProviderBlock.empty [] hparse hclean hrun
      refine ⟨hok, hhttp, fun st hmem => ?_⟩
      rcases hall st hmem with h | h <;> exact h

/-- Witness for `azure_inference_all_or_nothing`: inference used when all
three are absent; a partially-supplied configuration fails under
`require-integration` despite a parseable origin. -/
theorem azure_inference_all_or_nothing_witness :
    ((cmd_start azSampleEnv startAzInferArgs).1 = Except.ok ()
      ∧ ∃ st : StateRec,
          (statePath "ACF-3", FileData.stateJson st)
            ∈ (cmd_start azSampleEnv startAzInferArgs).2.filesWritten
          ∧ azureTripleOf st.provider
              = some ("https://dev.azure.com/acme", "proj", "widgets"))
    ∧ (cmd_start azSampleEnv startAzPartialArgs).1
        = Except.error Err.missingCredentialsAzure :=
  ⟨azure_inference_all_or_nothing.1 azSampleEnv startAzInferArgs
      "artifacts/stories/ACF-3.md" "Demo story" "# ACF-3: Demo story"
      "https://dev.azure.com/acme" "proj" "widgets"
      rfl rfl (by decide) (Or.inr rfl) (by decide) (by decide) (by decide)
      (by decide) (by decide) (by decide) (by decide) (by decide),
   (azure_inference_all_or_nothing.2 azSampleEnv startAzPartialArgs
      "artifacts/stories/ACF-3.md" "Demo story" "# ACF-3: Demo story"
      "https://dev.azure.com/acme" "proj" "widgets"
      rfl rfl (by decide) (by decide) (by decide)
      (Or.inr (Or.inl (by decide))) (Or.inl (by decide))).1 rfl⟩
